import Mathlib

/-!
# Verification of the matrix-multiplication benchmark

A shallow embedding of the C sources `C/benchmark/Benchmark.c` and
`C/src/matrix_mult.c` of the repository, together with theorems about the
properties stated in the design specification.

Modelling conventions:
* machine `double` values that the program only produces, stores and compares
  (matrix cells, elapsed times) are modelled as rationals (`ℚ`), i.e. with
  ideal arithmetic;
* machine `int` / `long` values are modelled as `Int`;
* each `malloc` outcome, each `fopen` outcome, the clock, the memory sampler,
  the random stream and the timestamp formatter are inputs of the model
  (oracles), since the C program reads them from the environment;
* the single file used by the program (the resolved CSV path) is modelled as
  `Option (List CsvLine)`: `none` when the file does not exist, otherwise the
  list of its lines; each `fprintf` of the program writes exactly one line;
* text printed with `printf` goes to a `stdout` list, text printed with
  `perror` / `fprintf(stderr, ...)` goes to a separate `stderr` list,
  mirroring the two streams used by the program.
-/

/-- A square matrix of `double` values, addressed by row and column index.
Cells are modelled as rationals (ideal arithmetic for the C `double`s). -/
abbrev Mat : Type := Nat → Nat → ℚ

/-- Pointwise update of one cell of a matrix, the model of the C assignment
`M[i][j] = v`. -/
def updMat (M : Mat) (i j : Nat) (v : ℚ) : Mat :=
  fun i' j' => if i' = i ∧ j' = j then v else M i' j'

/-- The three matrices `A`, `B`, `C` held by the benchmark driver.  The
multiply kernel receives pointers to all three; the store is modelled as this
record so that writes through one pointer are visibly separate from the other
two. -/
structure MatState where
  A : Mat
  B : Mat
  C : Mat

/-- One line of the results CSV file: either the header line or one data row
`C,<n>,<run_index>,<elapsed>,<mem>,<timestamp>` (the language tag `C` is a
fixed literal in the `fprintf` format string, so it is not a field). -/
inductive CsvLine where
  | header
  | row (n run_index : Int) (elapsed : ℚ) (mem : Int) (ts : String)

/-- Left-pad a numeral string with zeros to 6 characters, for the fractional
part of a fixed-point rendering. -/
def padZeros6 (s : String) : String :=
  String.mk (List.replicate (6 - s.length) '0') ++ s

/-- Rendering of an elapsed time with 6 fractional digits, the model of
`printf`-style `%.6f` (round to nearest) applied to the `double` value. -/
def fmt6 (q : ℚ) : String :=
  let m : Int := round (q * 1000000)
  let sign := if m < 0 then "-" else ""
  sign ++ toString (m.natAbs / 1000000) ++ "." ++ padZeros6 (toString (m.natAbs % 1000000))

/-- The text of a CSV line, exactly as the `fprintf` calls of `ensure_csv`
and `append_csv` produce it (without the trailing newline). -/
def CsvLine.text : CsvLine → String
  | .header => "language,matrix_size,run_index,elapsed_sec,memory_used_mb,timestamp_iso"
  | .row n r elapsed mem ts =>
      "C," ++ toString n ++ "," ++ toString r ++ "," ++ fmt6 elapsed ++ ","
        ++ toString mem ++ "," ++ ts

/-- One line printed to standard output by the driver, with the data the
corresponding `printf` call interpolates.  `avg` keeps the numerator `total`
and the denominator `runs` of the printed average `total / runs` (the C code
performs that division in `double` arithmetic). -/
inductive OutLine where
  | usage
  | infoPath (path : String)
  | banner
  | sizeRuns (n runs : Int)
  | sep
  | runLine (r : Int) (elapsed : ℚ) (mem : Int)
  | avg (total : ℚ) (runs : Int)
  | bannerEnd

/-- One line printed to the error stream: the `perror` call and the
`fprintf(stderr, "Tried path: %s\n", path)` call of `ensure_csv` and
`append_csv`. -/
inductive ErrLine where
  | fopenHeader
  | fopenAppend
  | triedPath (path : String)

/-- Abstract events of the driver, recorded so that "no allocation happened"
and "no multiplication happened" are statable: one `alloc` per
`allocate_matrix` call, one `fill` per `fill_random` call, one `multiply` per
kernel invocation. -/
inductive Event where
  | alloc (n : Int)
  | fill (n : Int)
  | multiply (n : Int)

/-- Result of a C function call that might instead end the process:
`ret a` is a normal return, `fatal` stands for a process-terminating failure
(an `exit`/`abort`, or a crash from undefined behaviour). -/
inductive CResult (α : Type) where
  | ret (a : α)
  | fatal

/-- Whether a call ended the process. -/
def CResult.isFatal {α : Type} : CResult α → Bool
  | .ret _ => false
  | .fatal => true

/-- The pointer structure returned by `allocate_matrix`: whether the outer
row-pointer array is non-null, and per row index whether that row pointer is
non-null.  `rowOk i` is only meaningful for `i < n`. -/
structure CMatrix where
  outerOk : Bool
  rowOk : Nat → Bool

namespace Benchmark

/-!
## Embedding of `C/benchmark/Benchmark.c`
-/

/-- `allocate_matrix` from `Benchmark.c`:
```
double** allocate_matrix(int n) {
    double **M = (double**)malloc(n * sizeof(double*));
    for (int i = 0; i < n; ++i) M[i] = (double*)malloc(n * sizeof(double));
    return M;
}
```
`mOuter` is the outcome of the outer `malloc`, `mRow i` the outcome of the
`malloc` for row `i`.  The function performs no checks: it returns whatever
pointers `malloc` produced.  The only way it can fail to return is undefined
behaviour: when the outer `malloc` failed (`M` null) and `n > 0`, the loop
stores through the null pointer `M`, modelled as a crash (`fatal`).  For
`n ≤ 0` the loop body never executes and `M` is returned as is. -/
def allocate_matrix (mOuter : Bool) (mRow : Nat → Bool) (n : Int) : CResult CMatrix :=
  if mOuter = false ∧ 0 < n then CResult.fatal
  else CResult.ret ⟨mOuter, fun i => decide ((i : Int) < n) && mRow i⟩

/-- `free_matrix` from `Benchmark.c`: frees rows `0..n-1` then the outer
array; modelled by the sequence of `free` calls it issues. -/
def free_matrix (n : Int) : List (Option Nat) :=
  (List.range n.toNat).map (fun i => some i) ++ [none]

/-- The accumulator loop `for (k...) s += A[i][k] * B[k][j];` of the multiply
kernel, reading matrices `A` and `B` of the current store `s`. -/
def dotAcc (s : MatState) (i j N : Nat) : ℚ :=
  (List.range N).foldl (fun acc k => acc + s.A i k * s.B k j) 0

/-- The inner column loop `for (j = 0; j < m; ++j) { ... C[i][j] = s; }` of
the multiply kernel at row `i`, with dot products of length `N`. -/
def rowPass (i N m : Nat) (t : MatState) : MatState :=
  (List.range m).foldl (fun u j => { u with C := updMat u.C i j (dotAcc u i j N) }) t

/-- The outer row loop `for (i = 0; i < m; ++i)` of the multiply kernel. -/
def colPass (N m : Nat) (s : MatState) : MatState :=
  (List.range m).foldl (fun t i => rowPass i N N t) s

/-- `matrix_multiply` from `Benchmark.c`:
```
void matrix_multiply(double **A, double **B, double **C, int n) {
    for (int i = 0; i < n; ++i) {
        for (int j = 0; j < n; ++j) {
            double s = 0.0;
            for (int k = 0; k < n; ++k) s += A[i][k] * B[k][j];
            C[i][j] = s;
        }
    }
}
```
For `n ≤ 0` every loop bound is empty, hence `Int.toNat`. -/
def matrix_multiply (n : Int) (s : MatState) : MatState :=
  colPass n.toNat n.toNat s

end Benchmark

namespace MatrixMultSrc

/-!
## Embedding of `C/src/matrix_mult.c`

The file contains its own copies of `allocate_matrix`, `free_matrix` and
`matrix_multiply`, embedded here independently of the `Benchmark` namespace.
-/

/-- `allocate_matrix` from `matrix_mult.c`: identical text to the benchmark
copy apart from spelling (`i++` for `++i`); no checks, returns the `malloc`
results; a null outer pointer with `n > 0` crashes in the loop. -/
def allocate_matrix (mOuter : Bool) (mRow : Nat → Bool) (n : Int) : CResult CMatrix :=
  if mOuter = false ∧ 0 < n then CResult.fatal
  else CResult.ret ⟨mOuter, fun i => decide ((i : Int) < n) && mRow i⟩

/-- `free_matrix` from `matrix_mult.c`: frees rows `0..n-1` then the outer
array. -/
def free_matrix (n : Int) : List (Option Nat) :=
  (List.range n.toNat).map (fun i => some i) ++ [none]

/-- The accumulator loop `sum += A[i][k] * B[k][j];` of the kernel in
`matrix_mult.c`. -/
def dotAcc (s : MatState) (i j N : Nat) : ℚ :=
  (List.range N).foldl (fun acc k => acc + s.A i k * s.B k j) 0

/-- The inner column loop of the kernel in `matrix_mult.c`. -/
def rowPass (i N m : Nat) (t : MatState) : MatState :=
  (List.range m).foldl (fun u j => { u with C := updMat u.C i j (dotAcc u i j N) }) t

/-- The outer row loop of the kernel in `matrix_mult.c`. -/
def colPass (N m : Nat) (s : MatState) : MatState :=
  (List.range m).foldl (fun t i => rowPass i N N t) s

/-- `matrix_multiply` from `matrix_mult.c`: the same triple loop as the
benchmark copy, with the accumulator named `sum` instead of `s`. -/
def matrix_multiply (n : Int) (s : MatState) : MatState :=
  colPass n.toNat n.toNat s

end MatrixMultSrc

/-!
## Characterisation of the multiply kernel
-/

theorem foldl_add_eq_sum (f : Nat → ℚ) :
    ∀ (n : Nat) (a : ℚ),
      (List.range n).foldl (fun acc k => acc + f k) a = a + ∑ k in Finset.range n, f k := by
  intro n
  induction n with
  | zero => intro a; simp
  | succ m ih =>
      intro a
      rw [List.range_succ, List.foldl_append, ih, Finset.sum_range_succ]
      simp [add_assoc]

namespace Benchmark

theorem dotAcc_eq_sum (s : MatState) (i j N : Nat) :
    dotAcc s i j N = ∑ k in Finset.range N, s.A i k * s.B k j := by
  rw [dotAcc, foldl_add_eq_sum, zero_add]

theorem dotAcc_congr {s t : MatState} (hA : s.A = t.A) (hB : s.B = t.B)
    (i j N : Nat) : dotAcc s i j N = dotAcc t i j N := by
  simp [dotAcc, hA, hB]

theorem rowPass_succ (i N m : Nat) (t : MatState) :
    rowPass i N (m + 1) t =
      { rowPass i N m t with
          C := updMat (rowPass i N m t).C i m (dotAcc (rowPass i N m t) i m N) } := by
  rw [rowPass, rowPass, List.range_succ, List.foldl_append]
  rfl

theorem rowPass_A (i N m : Nat) (t : MatState) : (rowPass i N m t).A = t.A := by
  induction m with
  | zero => rfl
  | succ m ih => rw [rowPass_succ]; exact ih

theorem rowPass_B (i N m : Nat) (t : MatState) : (rowPass i N m t).B = t.B := by
  induction m with
  | zero => rfl
  | succ m ih => rw [rowPass_succ]; exact ih

theorem rowPass_C (i N m : Nat) (t : MatState) (i' j' : Nat) :
    (rowPass i N m t).C i' j' =
      if i' = i ∧ j' < m then dotAcc t i j' N else t.C i' j' := by
  induction m with
  | zero => simp [rowPass]
  | succ m ih =>
      rw [rowPass_succ]
      show updMat (rowPass i N m t).C i m (dotAcc (rowPass i N m t) i m N) i' j' = _
      rw [updMat]
      by_cases hij : i' = i ∧ j' = m
      · rw [if_pos hij, if_pos (show i' = i ∧ j' < m + 1 by omega),
            dotAcc_congr (rowPass_A i N m t) (rowPass_B i N m t), hij.2]
      · rw [if_neg hij, ih]
        by_cases h1 : i' = i ∧ j' < m
        · rw [if_pos h1, if_pos (show i' = i ∧ j' < m + 1 by omega)]
        · have h2 : ¬(i' = i ∧ j' < m + 1) := by
            intro h3
            rcases Nat.lt_succ_iff_lt_or_eq.mp h3.2 with h | h
            · exact h1 ⟨h3.1, h⟩
            · exact hij ⟨h3.1, h⟩
          rw [if_neg h1, if_neg h2]

theorem colPass_succ (N m : Nat) (s : MatState) :
    colPass N (m + 1) s = rowPass m N N (colPass N m s) := by
  rw [colPass, colPass, List.range_succ, List.foldl_append]
  rfl

theorem colPass_A (N m : Nat) (s : MatState) : (colPass N m s).A = s.A := by
  induction m with
  | zero => rfl
  | succ m ih => rw [colPass_succ, rowPass_A]; exact ih

theorem colPass_B (N m : Nat) (s : MatState) : (colPass N m s).B = s.B := by
  induction m with
  | zero => rfl
  | succ m ih => rw [colPass_succ, rowPass_B]; exact ih

theorem colPass_C (N m : Nat) (s : MatState) (i' j' : Nat) :
    (colPass N m s).C i' j' =
      if i' < m ∧ j' < N then dotAcc s i' j' N else s.C i' j' := by
  induction m with
  | zero => simp [colPass]
  | succ m ih =>
      rw [colPass_succ, rowPass_C,
          dotAcc_congr (colPass_A N m s) (colPass_B N m s), ih]
      by_cases hij : i' = m ∧ j' < N
      · rw [if_pos hij, if_pos (show i' < m + 1 ∧ j' < N by omega), hij.1]
      · rw [if_neg hij]
        by_cases h1 : i' < m ∧ j' < N
        · rw [if_pos h1, if_pos (show i' < m + 1 ∧ j' < N by omega)]
        · have h2 : ¬(i' < m + 1 ∧ j' < N) := by
            intro h3
            rcases Nat.lt_succ_iff_lt_or_eq.mp h3.1 with h | h
            · exact h1 ⟨h, h3.2⟩
            · exact hij ⟨h, h3.2⟩
          rw [if_neg h1, if_neg h2]

theorem matrix_multiply_cell (n : Int) (s : MatState) (i j : Nat)
    (hi : i < n.toNat) (hj : j < n.toNat) :
    (matrix_multiply n s).C i j = ∑ k in Finset.range n.toNat, s.A i k * s.B k j := by
  rw [matrix_multiply, colPass_C, if_pos ⟨hi, hj⟩, dotAcc_eq_sum]

theorem matrix_multiply_A (n : Int) (s : MatState) :
    (matrix_multiply n s).A = s.A := colPass_A n.toNat n.toNat s

theorem matrix_multiply_B (n : Int) (s : MatState) :
    (matrix_multiply n s).B = s.B := colPass_B n.toNat n.toNat s

end Benchmark

/-- The spec's concrete scenario inputs: `A = [[1,2],[3,4]]`,
`B = [[5,6],[7,8]]` and an arbitrary (zero) pre-allocated output `C`. -/
def demoMats : MatState :=
  { A := fun i j => (([[1, 2], [3, 4]] : List (List ℚ)).getD i []).getD j 0
    B := fun i j => (([[5, 6], [7, 8]] : List (List ℚ)).getD i []).getD j 0
    C := fun _ _ => 0 }

/-- C1: for every `n` and all matrices, the multiply kernel writes
`C[i][j] = Σₖ A[i][k]·B[k][j]` into every cell `(i, j)` with `i, j < n`;
in particular on the spec's scenario `n = 2`, `A = [[1,2],[3,4]]`,
`B = [[5,6],[7,8]]` it produces `C = [[19,22],[43,50]]`. -/
theorem matrix_multiply_correct :
    (∀ (n : Int) (s : MatState) (i j : Nat), i < n.toNat → j < n.toNat →
        (Benchmark.matrix_multiply n s).C i j =
          ∑ k in Finset.range n.toNat, s.A i k * s.B k j)
    ∧ ((Benchmark.matrix_multiply 2 demoMats).C 0 0 = 19
        ∧ (Benchmark.matrix_multiply 2 demoMats).C 0 1 = 22
        ∧ (Benchmark.matrix_multiply 2 demoMats).C 1 0 = 43
        ∧ (Benchmark.matrix_multiply 2 demoMats).C 1 1 = 50) := by
  refine ⟨Benchmark.matrix_multiply_cell, ?_, ?_, ?_, ?_⟩ <;>
  · rw [Benchmark.matrix_multiply_cell 2 demoMats _ _ (by norm_num) (by norm_num),
        show (2 : Int).toNat = 2 from rfl]
    norm_num [demoMats, Finset.sum_range_succ]

/-- Witness for C1: the general cell formula instantiated on the scenario
matrices at cell `(0, 0)`. -/
theorem matrix_multiply_correct_witness :
    (Benchmark.matrix_multiply 2 demoMats).C 0 0 =
      ∑ k in Finset.range (2 : Int).toNat, demoMats.A 0 k * demoMats.B k 0 :=
  matrix_multiply_correct.1 2 demoMats 0 0 (by decide) (by decide)

/-- C9: the two copies of the kernel (and of the allocator and
deallocator) in `Benchmark.c` and `matrix_mult.c` are extensionally equal:
on every dimension and every store they produce the same result. -/
theorem duplicate_kernels_equal :
    (∀ (n : Int) (s : MatState),
        Benchmark.matrix_multiply n s = MatrixMultSrc.matrix_multiply n s)
    ∧ (∀ (mOuter : Bool) (mRow : Nat → Bool) (n : Int),
        Benchmark.allocate_matrix mOuter mRow n = MatrixMultSrc.allocate_matrix mOuter mRow n)
    ∧ (∀ (n : Int), Benchmark.free_matrix n = MatrixMultSrc.free_matrix n) :=
  ⟨fun _ _ => rfl, fun _ _ _ => rfl, fun _ => rfl⟩

/-- C2 counterexample: the claim says that for `n ≤ 0` the allocator fails
process-fatally; in the code there is no check at all, so at `n = 0` (with
the `malloc`s succeeding) the call simply returns. -/
theorem allocate_matrix_not_fatal_cex :
    (Benchmark.allocate_matrix true (fun _ => true) 0).isFatal = false := rfl

/-- C2 (amended): the allocator performs no validation and no failure
handling.  For every `n ≤ 0` it returns a container with no rows allocated
instead of terminating the process; whenever the outer allocation succeeds it
returns (a possibly partially-null container) regardless of row-allocation
failures; for positive `n` with all allocations succeeding it returns a fresh
fully-allocated n-by-n container; the only non-returning case is the
undefined-behaviour crash when the outer allocation fails with `n > 0`. -/
theorem allocate_matrix_behaviour (mOuter : Bool) (mRow : Nat → Bool) (n : Int) :
    (n ≤ 0 → ∃ M, Benchmark.allocate_matrix mOuter mRow n = CResult.ret M
        ∧ ∀ i, M.rowOk i = false)
    ∧ (mOuter = true → (Benchmark.allocate_matrix mOuter mRow n).isFatal = false)
    ∧ (mOuter = true → (∀ i, mRow i = true) →
        ∃ M, Benchmark.allocate_matrix mOuter mRow n = CResult.ret M
          ∧ M.outerOk = true ∧ ∀ i : Nat, (i : Int) < n → M.rowOk i = true)
    ∧ (mOuter = false → 0 < n →
        Benchmark.allocate_matrix mOuter mRow n = CResult.fatal) := by
  refine ⟨?_, ?_, ?_, ?_⟩
  · intro hn
    refine ⟨⟨mOuter, fun i => decide ((i : Int) < n) && mRow i⟩, ?_, ?_⟩
    · rw [Benchmark.allocate_matrix, if_neg (fun h => absurd h.2 (by omega))]
    · intro i
      have hi : ¬((i : Int) < n) := by omega
      show (decide ((i : Int) < n) && mRow i) = false
      rw [decide_eq_false hi, Bool.false_and]
  · intro hm
    subst hm
    rw [Benchmark.allocate_matrix, if_neg (fun h => Bool.noConfusion h.1)]
    rfl
  · intro hm hr
    subst hm
    refine ⟨⟨true, fun i => decide ((i : Int) < n) && mRow i⟩, ?_, rfl, ?_⟩
    · rw [Benchmark.allocate_matrix, if_neg (fun h => Bool.noConfusion h.1)]
    · intro i hi
      show (decide ((i : Int) < n) && mRow i) = true
      rw [decide_eq_true hi, hr i, Bool.and_self]
  · intro hm hn
    subst hm
    rw [Benchmark.allocate_matrix, if_pos ⟨rfl, hn⟩]

/-- Witness for C2 (amended): at `n = -1` the allocator returns a rowless
container, and at `n = 3` with all allocations succeeding it returns a fully
allocated container. -/
theorem allocate_matrix_behaviour_witness :
    (∃ M, Benchmark.allocate_matrix true (fun _ => true) (-1) = CResult.ret M
        ∧ ∀ i, M.rowOk i = false)
    ∧ (∃ M, Benchmark.allocate_matrix true (fun _ => true) 3 = CResult.ret M
        ∧ M.outerOk = true ∧ ∀ i : Nat, (i : Int) < 3 → M.rowOk i = true) :=
  ⟨(allocate_matrix_behaviour true (fun _ => true) (-1)).1 (by decide),
   (allocate_matrix_behaviour true (fun _ => true) 3).2.2.1 rfl (fun _ => rfl)⟩

/-!
## Embedding of the driver of `Benchmark.c`

The pointer-level outcome of the three `allocate_matrix` calls is modelled in
`Benchmark.allocate_matrix` above; the driver model assumes those `malloc`s
succeed (on failure the subsequent `fill_random` dereferences a null pointer,
undefined behaviour outside this model) and tracks the matrix contents in a
`MatState`.
-/

/-- C `isspace` for the default locale: space, tab, newline, vertical tab,
form feed, carriage return. -/
def isSpaceChar (c : Char) : Bool :=
  c = ' ' || c = '\t' || c = '\n' || c.toNat = 11 || c.toNat = 12 || c = '\r'

/-- Drop the leading whitespace characters, as `atoi` does. -/
def skipSpaces : List Char → List Char
  | [] => []
  | c :: cs => if isSpaceChar c then skipSpaces cs else c :: cs

/-- Consume decimal digits, accumulating their value; stops at the first
non-digit, as `atoi` does. -/
def digitsAcc : List Char → Int → Int
  | [], acc => acc
  | c :: cs, acc =>
      if c.isDigit then digitsAcc cs (acc * 10 + ((c.toNat : Int) - 48)) else acc

/-- The C `atoi`: optional whitespace, optional sign, then decimal digits up
to the first non-digit; no digits yields 0 (overflow, being undefined
behaviour for `atoi`, is not modelled: the value is exact). -/
def c_atoi (s : String) : Int :=
  match skipSpaces s.data with
  | '-' :: cs => - digitsAcc cs 0
  | '+' :: cs => digitsAcc cs 0
  | cs => digitsAcc cs 0

/-- The environment of one process invocation: the `RESULTS_CSV` variable,
the initial state of the results file, the outcome of each `fopen`, the
memory-sampler readings, the clock readings, the formatted timestamps, the
random stream used by the two `fill_random` calls, and the (uninitialised)
contents of freshly allocated matrices.  Per-run oracles are indexed by the
1-based run index. -/
structure Oracles where
  envCsv : Option String
  file0 : Option (List CsvLine)
  headerOpenOk : Bool
  appendOpenOk : Nat → Bool
  memBefore : Nat → Int
  memAfter : Nat → Int
  tStart : Nat → ℚ
  tEnd : Nat → ℚ
  stamp : Nat → String
  fillA : Nat → Nat → ℚ
  fillB : Nat → Nat → ℚ
  initA : Mat
  initB : Mat
  initC : Mat

/-- The observable state of one process invocation: the results file, the
standard-output lines, the error-stream lines, the abstract events performed,
and the contents of the three matrices. -/
structure DriverState where
  file : Option (List CsvLine)
  out : List OutLine
  err : List ErrLine
  events : List Event
  mats : MatState

/-- The state at process start. -/
def initState (oc : Oracles) : DriverState :=
  { file := oc.file0
    out := []
    err := []
    events := []
    mats := { A := oc.initA, B := oc.initB, C := oc.initC } }

/-- The default CSV path of `resolve_csv_path` (POSIX separator). -/
def defaultCsvPath : String := "../data/results.csv"

/-- `resolve_csv_path` from `Benchmark.c`: the `RESULTS_CSV` environment
variable when set and non-empty, else the fixed default. -/
def resolve_csv_path (env : Option String) : String :=
  match env with
  | some e => if e = "" then defaultCsvPath else e
  | none => defaultCsvPath

/-- `ensure_csv` from `Benchmark.c`: `ensure_parent_dir` (directory creation,
no observable effect in this model), then `fopen(path, "r")` as an existence
test — if the file exists, return; otherwise `fopen(path, "w")` (outcome
`openOk`) and either write the header line or report the failure on the error
stream and return. -/
def ensure_csv (openOk : Bool) (path : String) (s : DriverState) : DriverState :=
  match s.file with
  | some _ => s
  | none =>
      if openOk then { s with file := some [CsvLine.header] }
      else { s with err := s.err ++ [ErrLine.fopenHeader, ErrLine.triedPath path] }

/-- `append_csv` from `Benchmark.c`: `fopen(path, "a")` (outcome `openOk`,
creating the file when missing), then one data row; on open failure the
errors go to the error stream and the row is dropped. -/
def append_csv (openOk : Bool) (path : String) (n r : Int) (elapsed : ℚ)
    (mem : Int) (ts : String) (s : DriverState) : DriverState :=
  if openOk then
    { s with file := some (s.file.getD [] ++ [CsvLine.row n r elapsed mem ts]) }
  else
    { s with err := s.err ++ [ErrLine.fopenAppend, ErrLine.triedPath path] }

/-- `fill_random` from `Benchmark.c`: assigns every cell `(i, j)` with
`i, j < n` a value from the random stream `vals` (the successive
`rand() / RAND_MAX` draws, indexed here by the cell they land in). -/
def fill_random (vals : Nat → Nat → ℚ) (n : Int) (M : Mat) : Mat :=
  (List.range n.toNat).foldl (fun M0 i =>
    (List.range n.toNat).foldl (fun M1 j => updMat M1 i j (vals i j)) M0) M

/-- The memory-delta computation of the run loop:
`mem_used = mem_after - mem_before; if (mem_used < 0) mem_used = 0;`. -/
def mem_used (before after : Int) : Int :=
  if after - before < 0 then 0 else after - before

/-- The elapsed wall-clock time of run `r`: `t1 - t0`. -/
def elapsedFor (oc : Oracles) (r : Nat) : ℚ := oc.tEnd r - oc.tStart r

/-- The clamped memory delta of run `r`. -/
def memFor (oc : Oracles) (r : Nat) : Int :=
  mem_used (oc.memBefore r) (oc.memAfter r)

/-- The CSV data row of run `r`. -/
def rowFor (oc : Oracles) (n : Int) (r : Nat) : CsvLine :=
  CsvLine.row n r (elapsedFor oc r) (memFor oc r) (oc.stamp r)

/-- The error-stream lines of one `append_csv` call. -/
def appendErrs (openOk : Bool) (path : String) : List ErrLine :=
  if openOk then [] else [ErrLine.fopenAppend, ErrLine.triedPath path]

/-- One iteration of the run loop of `main`: sample memory, time the kernel
call, sample memory again, clamp the delta, add to the running total, append
the CSV row, print the progress line. -/
def runStep (oc : Oracles) (n : Int) (path : String) (acc : ℚ × DriverState)
    (r : Nat) : ℚ × DriverState :=
  let s1 : DriverState :=
    { acc.2 with
        mats := Benchmark.matrix_multiply n acc.2.mats
        events := acc.2.events ++ [Event.multiply n] }
  let s2 := append_csv (oc.appendOpenOk r) path n r (elapsedFor oc r)
    (memFor oc r) (oc.stamp r) s1
  (acc.1 + elapsedFor oc r,
   { s2 with out := s2.out ++ [OutLine.runLine r (elapsedFor oc r) (memFor oc r)] })

/-- The run indices visited by `for (int r = 1; r <= runs; ++r)`: the list
`[1, ..., runs]`, empty when `runs ≤ 0`. -/
def runIdxs (runs : Int) : List Nat :=
  (List.range runs.toNat).map (fun m => m + 1)

/-- `n = atoi(argv[1])`: the first positional argument parsed by `atoi`. -/
def nArg (args : List String) : Int := c_atoi (args.getD 0 "")

/-- `runs = atoi(argv[2])`: the second positional argument parsed by
`atoi`. -/
def runsArg (args : List String) : Int := c_atoi (args.getD 1 "")

/-- The Setup portion of `main` on the `argc ≥ 3` path, up to the run loop:
resolve the CSV path, ensure the CSV header, print the path-info line,
allocate the three matrices, fill `A` and `B`, print the banner block. -/
def setupSt (args : List String) (oc : Oracles) : DriverState :=
  let n := nArg args
  let runs := runsArg args
  let path := resolve_csv_path oc.envCsv
  let s1 := ensure_csv oc.headerOpenOk path (initState oc)
  let s2 : DriverState := { s1 with out := s1.out ++ [OutLine.infoPath path] }
  let s3 : DriverState :=
    { s2 with
        events := s2.events ++
          [Event.alloc n, Event.alloc n, Event.alloc n, Event.fill n, Event.fill n]
        mats := { A := fill_random oc.fillA n oc.initA
                  B := fill_random oc.fillB n oc.initB
                  C := oc.initC } }
  { s3 with out := s3.out ++ [OutLine.banner, OutLine.sizeRuns n runs, OutLine.sep] }

/-- `main` from `Benchmark.c`, taking the positional arguments (`argv`
without the program name, so `argc < 3` is `args.length < 2`) and the
environment oracles.  Returns the exit code and the final observable state:
usage check, Setup (`setupSt`), the run loop over run indices `1..runs`,
then the average line and teardown (freeing, not observable here), exit
code 0. -/
def c_main (args : List String) (oc : Oracles) : Int × DriverState :=
  if args.length < 2 then
    (1, { initState oc with out := [OutLine.usage] })
  else
    let p := (runIdxs (runsArg args)).foldl
      (runStep oc (nArg args) (resolve_csv_path oc.envCsv)) (0, setupSt args oc)
    (0, { p.2 with out := p.2.out ++
      [OutLine.sep, OutLine.avg p.1 (runsArg args), OutLine.bannerEnd] })

/-- A concrete environment for the witness theorems: fresh file, all file
operations succeed, constant clock and memory readings. -/
def demoOracles : Oracles :=
  { envCsv := none
    file0 := none
    headerOpenOk := true
    appendOpenOk := fun _ => true
    memBefore := fun _ => 0
    memAfter := fun _ => 0
    tStart := fun _ => 0
    tEnd := fun _ => 0
    stamp := fun _ => "2025-01-01T00:00:00"
    fillA := fun _ _ => 0
    fillB := fun _ _ => 0
    initA := fun _ _ => 0
    initB := fun _ _ => 0
    initC := fun _ _ => 0 }

/-!
## Characterisation of the run loop
-/

/-- The progress line `Run <r>: <elapsed> s | Memory used: <mem> MB` printed
by run `r`. -/
def outFor (oc : Oracles) (r : Nat) : OutLine :=
  OutLine.runLine r (elapsedFor oc r) (memFor oc r)

theorem runLoop_spec (oc : Oracles) (n : Int) (path : String) :
    ∀ (l : List Nat) (total : ℚ) (s : DriverState) (f0 : List CsvLine),
      s.file = some f0 →
      (l.foldl (runStep oc n path) (total, s)).1 = total + (l.map (elapsedFor oc)).sum
      ∧ (l.foldl (runStep oc n path) (total, s)).2.file =
          some (f0 ++ (l.filter (fun r => oc.appendOpenOk r)).map (rowFor oc n))
      ∧ (l.foldl (runStep oc n path) (total, s)).2.out = s.out ++ l.map (outFor oc)
      ∧ (l.foldl (runStep oc n path) (total, s)).2.err =
          s.err ++ (l.map (fun r => appendErrs (oc.appendOpenOk r) path)).flatten
      ∧ (l.foldl (runStep oc n path) (total, s)).2.events =
          s.events ++ l.map (fun _ => Event.multiply n)
      ∧ (l.foldl (runStep oc n path) (total, s)).2.mats.A = s.mats.A
      ∧ (l.foldl (runStep oc n path) (total, s)).2.mats.B = s.mats.B := by
  intro l
  induction l with
  | nil => intro total s f0 hf; simp [hf]
  | cons r t ih =>
      intro total s f0 hf
      rw [List.foldl_cons]
      cases hok : oc.appendOpenOk r with
      | true =>
          have hstep : runStep oc n path (total, s) r =
              (total + elapsedFor oc r,
               { file := some (f0 ++ [rowFor oc n r])
                 out := s.out ++ [outFor oc r]
                 err := s.err
                 events := s.events ++ [Event.multiply n]
                 mats := Benchmark.matrix_multiply n s.mats }) := by
            simp [runStep, append_csv, hok, hf, rowFor, outFor]
          rw [hstep]
          obtain ⟨h1, h2, h3, h4, h5, h6, h7⟩ :=
            ih (total + elapsedFor oc r)
              { file := some (f0 ++ [rowFor oc n r])
                out := s.out ++ [outFor oc r]
                err := s.err
                events := s.events ++ [Event.multiply n]
                mats := Benchmark.matrix_multiply n s.mats }
              (f0 ++ [rowFor oc n r]) rfl
          refine ⟨?_, ?_, ?_, ?_, ?_, ?_, ?_⟩
          · rw [h1]; simp [add_assoc]
          · rw [h2]; simp [List.filter_cons, hok]
          · rw [h3]; simp
          · rw [h4]; simp [appendErrs, hok]
          · rw [h5]; simp
          · rw [h6, Benchmark.matrix_multiply_A]
          · rw [h7, Benchmark.matrix_multiply_B]
      | false =>
          have hstep : runStep oc n path (total, s) r =
              (total + elapsedFor oc r,
               { file := some f0
                 out := s.out ++ [outFor oc r]
                 err := s.err ++ [ErrLine.fopenAppend, ErrLine.triedPath path]
                 events := s.events ++ [Event.multiply n]
                 mats := Benchmark.matrix_multiply n s.mats }) := by
            simp [runStep, append_csv, hok, hf, outFor]
          rw [hstep]
          obtain ⟨h1, h2, h3, h4, h5, h6, h7⟩ :=
            ih (total + elapsedFor oc r)
              { file := some f0
                out := s.out ++ [outFor oc r]
                err := s.err ++ [ErrLine.fopenAppend, ErrLine.triedPath path]
                events := s.events ++ [Event.multiply n]
                mats := Benchmark.matrix_multiply n s.mats }
              f0 rfl
          refine ⟨?_, ?_, ?_, ?_, ?_, ?_, ?_⟩
          · rw [h1]; simp [add_assoc]
          · rw [h2]; simp [List.filter_cons, hok]
          · rw [h3]; simp
          · rw [h4]; simp [appendErrs, hok]
          · rw [h5]; simp
          · rw [h6, Benchmark.matrix_multiply_A]
          · rw [h7, Benchmark.matrix_multiply_B]

/-!
## Projections of `c_main` and of the setup state
-/

theorem ensure_csv_mats (openOk : Bool) (path : String) (s : DriverState) :
    (ensure_csv openOk path s).mats = s.mats := by
  rcases hs : s.file with _ | f
  · simp only [ensure_csv, hs]
    split <;> rfl
  · simp [ensure_csv, hs]

theorem ensure_csv_events (openOk : Bool) (path : String) (s : DriverState) :
    (ensure_csv openOk path s).events = s.events := by
  rcases hs : s.file with _ | f
  · simp only [ensure_csv, hs]
    split <;> rfl
  · simp [ensure_csv, hs]

theorem setupSt_file (args : List String) (oc : Oracles) :
    (setupSt args oc).file =
      (ensure_csv oc.headerOpenOk (resolve_csv_path oc.envCsv) (initState oc)).file := rfl

theorem setupSt_events (args : List String) (oc : Oracles) :
    (setupSt args oc).events =
      [Event.alloc (nArg args), Event.alloc (nArg args), Event.alloc (nArg args),
       Event.fill (nArg args), Event.fill (nArg args)] := by
  show (ensure_csv oc.headerOpenOk (resolve_csv_path oc.envCsv) (initState oc)).events
      ++ [Event.alloc (nArg args), Event.alloc (nArg args), Event.alloc (nArg args),
          Event.fill (nArg args), Event.fill (nArg args)] = _
  rw [ensure_csv_events]
  rfl

theorem setupSt_mats (args : List String) (oc : Oracles) :
    (setupSt args oc).mats =
      { A := fill_random oc.fillA (nArg args) oc.initA
        B := fill_random oc.fillB (nArg args) oc.initB
        C := oc.initC } := rfl

theorem setupSt_char (args : List String) (oc : Oracles)
    (hf : oc.file0 = none) (hh : oc.headerOpenOk = true) :
    setupSt args oc =
      { file := some [CsvLine.header]
        out := [OutLine.infoPath (resolve_csv_path oc.envCsv), OutLine.banner,
                OutLine.sizeRuns (nArg args) (runsArg args), OutLine.sep]
        err := []
        events := [Event.alloc (nArg args), Event.alloc (nArg args), Event.alloc (nArg args),
                   Event.fill (nArg args), Event.fill (nArg args)]
        mats := { A := fill_random oc.fillA (nArg args) oc.initA
                  B := fill_random oc.fillB (nArg args) oc.initB
                  C := oc.initC } } := by
  have h1 : ensure_csv oc.headerOpenOk (resolve_csv_path oc.envCsv) (initState oc) =
      { file := some [CsvLine.header], out := [], err := [], events := []
        mats := { A := oc.initA, B := oc.initB, C := oc.initC } } := by
    simp [ensure_csv, initState, hf, hh]
  rw [setupSt]
  simp [h1]

theorem c_main_fst (args : List String) (oc : Oracles) (h : ¬args.length < 2) :
    (c_main args oc).1 = 0 := by
  rw [c_main, if_neg h]

theorem c_main_file (args : List String) (oc : Oracles) (h : ¬args.length < 2) :
    (c_main args oc).2.file =
      ((runIdxs (runsArg args)).foldl
        (runStep oc (nArg args) (resolve_csv_path oc.envCsv)) (0, setupSt args oc)).2.file := by
  rw [c_main, if_neg h]

theorem c_main_err (args : List String) (oc : Oracles) (h : ¬args.length < 2) :
    (c_main args oc).2.err =
      ((runIdxs (runsArg args)).foldl
        (runStep oc (nArg args) (resolve_csv_path oc.envCsv)) (0, setupSt args oc)).2.err := by
  rw [c_main, if_neg h]

theorem c_main_events (args : List String) (oc : Oracles) (h : ¬args.length < 2) :
    (c_main args oc).2.events =
      ((runIdxs (runsArg args)).foldl
        (runStep oc (nArg args) (resolve_csv_path oc.envCsv)) (0, setupSt args oc)).2.events := by
  rw [c_main, if_neg h]

theorem c_main_mats (args : List String) (oc : Oracles) (h : ¬args.length < 2) :
    (c_main args oc).2.mats =
      ((runIdxs (runsArg args)).foldl
        (runStep oc (nArg args) (resolve_csv_path oc.envCsv)) (0, setupSt args oc)).2.mats := by
  rw [c_main, if_neg h]

theorem c_main_out (args : List String) (oc : Oracles) (h : ¬args.length < 2) :
    (c_main args oc).2.out =
      ((runIdxs (runsArg args)).foldl
        (runStep oc (nArg args) (resolve_csv_path oc.envCsv)) (0, setupSt args oc)).2.out
      ++ [OutLine.sep,
          OutLine.avg
            ((runIdxs (runsArg args)).foldl
              (runStep oc (nArg args) (resolve_csv_path oc.envCsv)) (0, setupSt args oc)).1
            (runsArg args),
          OutLine.bannerEnd] := by
  rw [c_main, if_neg h]

/-!
## Claims about the CSV recorder and the driver
-/

/-- C3: `ensure_csv` is idempotent and non-destructive: on a missing file
(and a successful open) it creates exactly the header line, whose text is
the exact string of the spec; on an existing file it changes nothing; and a
second call never duplicates the header and never erases existing lines. -/
theorem ensure_csv_idempotent (path : String) (s : DriverState) (o o2 : Bool) :
    (s.file = none → (ensure_csv true path s).file = some [CsvLine.header])
    ∧ CsvLine.text CsvLine.header =
        "language,matrix_size,run_index,elapsed_sec,memory_used_mb,timestamp_iso"
    ∧ (∀ f, s.file = some f → ensure_csv o path s = s)
    ∧ (∀ f, (ensure_csv o path s).file = some f →
        (ensure_csv o2 path (ensure_csv o path s)).file = some f) := by
  refine ⟨?_, rfl, ?_, ?_⟩
  · intro hn
    simp [ensure_csv, hn]
  · intro f hf
    simp [ensure_csv, hf]
  · intro f hf
    generalize hE : ensure_csv o path s = s1 at hf
    simp [ensure_csv, hf]

/-- Witness for C3: on the demo state (no file), one call creates the header
and a second call leaves it as is. -/
theorem ensure_csv_idempotent_witness :
    (ensure_csv true "p" (initState demoOracles)).file = some [CsvLine.header]
    ∧ (ensure_csv true "p" (ensure_csv true "p" (initState demoOracles))).file =
        some [CsvLine.header] := by
  refine ⟨(ensure_csv_idempotent "p" (initState demoOracles) true true).1 rfl, ?_⟩
  exact (ensure_csv_idempotent "p" (initState demoOracles) true true).2.2.2
    [CsvLine.header]
    ((ensure_csv_idempotent "p" (initState demoOracles) true true).1 rfl)

/-- C4: with fewer than 2 positional arguments `main` prints the usage line,
exits with code 1, and touches neither the CSV file, the error stream, the
matrices, nor any allocation or run (no events); with at least 2 positional
arguments it runs through and exits with code 0. -/
theorem usage_exit (args : List String) (oc : Oracles) :
    (args.length < 2 →
      (c_main args oc).1 = 1
      ∧ (c_main args oc).2.file = oc.file0
      ∧ (c_main args oc).2.out = [OutLine.usage]
      ∧ (c_main args oc).2.err = []
      ∧ (c_main args oc).2.events = [])
    ∧ (2 ≤ args.length → (c_main args oc).1 = 0) := by
  constructor
  · intro h
    rw [c_main, if_pos h]
    exact ⟨rfl, rfl, rfl, rfl, rfl⟩
  · intro h
    exact c_main_fst args oc (by omega)

/-- Witness for C4: no arguments gives exit 1 and an untouched file; two
arguments give exit 0. -/
theorem usage_exit_witness :
    ((c_main [] demoOracles).1 = 1
      ∧ (c_main [] demoOracles).2.file = demoOracles.file0
      ∧ (c_main [] demoOracles).2.out = [OutLine.usage]
      ∧ (c_main [] demoOracles).2.err = []
      ∧ (c_main [] demoOracles).2.events = [])
    ∧ (c_main ["2", "1"] demoOracles).1 = 0 :=
  ⟨(usage_exit [] demoOracles).1 (by decide),
   (usage_exit ["2", "1"] demoOracles).2 (by decide)⟩

theorem runStep_mats (oc : Oracles) (n : Int) (path : String)
    (acc : ℚ × DriverState) (r : Nat) :
    (runStep oc n path acc r).2.mats = Benchmark.matrix_multiply n acc.2.mats := by
  cases hok : oc.appendOpenOk r <;> simp [runStep, append_csv, hok]

theorem runLoop_mats (oc : Oracles) (n : Int) (path : String) :
    ∀ (l : List Nat) (acc : ℚ × DriverState),
      (l.foldl (runStep oc n path) acc).2.mats.A = acc.2.mats.A
      ∧ (l.foldl (runStep oc n path) acc).2.mats.B = acc.2.mats.B := by
  intro l
  induction l with
  | nil => intro acc; exact ⟨rfl, rfl⟩
  | cons r t ih =>
      intro acc
      rw [List.foldl_cons]
      obtain ⟨hA, hB⟩ := ih (runStep oc n path acc r)
      constructor
      · rw [hA, runStep_mats, Benchmark.matrix_multiply_A]
      · rw [hB, runStep_mats, Benchmark.matrix_multiply_B]

/-- C5: starting from no results file, with `k ≥ 1` runs and every file
operation succeeding, the final file is exactly the header line followed by
`k` data rows in run-index order `1..k`, hence `1 + k` lines. -/
theorem csv_row_count (args : List String) (oc : Oracles) (k : Int)
    (hargs : 2 ≤ args.length) (hk : runsArg args = k) (_hk1 : 1 ≤ k)
    (hf : oc.file0 = none) (hh : oc.headerOpenOk = true)
    (hok : ∀ r, oc.appendOpenOk r = true) :
    (c_main args oc).2.file =
      some (CsvLine.header ::
        (List.range k.toNat).map (fun m => rowFor oc (nArg args) (m + 1)))
    ∧ ((c_main args oc).2.file.getD []).length = 1 + k.toNat := by
  have hns : ¬args.length < 2 := by omega
  have hchar := setupSt_char args oc hf hh
  obtain ⟨h1, h2, h3, h4, h5, h6, h7⟩ :=
    runLoop_spec oc (nArg args) (resolve_csv_path oc.envCsv) (runIdxs (runsArg args)) 0
      (setupSt args oc) [CsvLine.header] (by rw [hchar])
  have hfilter : (runIdxs (runsArg args)).filter (fun r => oc.appendOpenOk r) =
      runIdxs (runsArg args) :=
    List.filter_eq_self.mpr (fun a _ => hok a)
  have hfile : (c_main args oc).2.file =
      some (CsvLine.header ::
        (List.range k.toNat).map (fun m => rowFor oc (nArg args) (m + 1))) := by
    rw [c_main_file args oc hns, h2, hfilter, hk, runIdxs, List.map_map]
    rfl
  refine ⟨hfile, ?_⟩
  rw [hfile]
  simp [Nat.add_comm]

/-- Witness for C5: two positional arguments `"2" "3"` on a fresh file give
a header plus three rows. -/
theorem csv_row_count_witness :
    (c_main ["2", "3"] demoOracles).2.file =
      some (CsvLine.header ::
        (List.range (3 : Int).toNat).map (fun m => rowFor demoOracles (nArg ["2", "3"]) (m + 1)))
    ∧ ((c_main ["2", "3"] demoOracles).2.file.getD []).length = 1 + (3 : Int).toNat :=
  csv_row_count ["2", "3"] demoOracles 3 (by decide) (by decide) (by decide)
    rfl rfl (fun _ => rfl)

/-- C6: the kernel never writes to `A` or `B` (only to `C`), every prefix of
the run loop leaves `A` and `B` unchanged, and after a full invocation `A`
and `B` still hold exactly the values the two pre-loop `fill_random` calls
wrote (they are filled once and never re-randomised). -/
theorem fill_once_frame (oc : Oracles) (n : Int) (path : String) :
    (∀ s : MatState, (Benchmark.matrix_multiply n s).A = s.A
        ∧ (Benchmark.matrix_multiply n s).B = s.B)
    ∧ (∀ (l : List Nat) (r : Nat) (acc : ℚ × DriverState),
        ((l.take r).foldl (runStep oc n path) acc).2.mats.A = acc.2.mats.A
        ∧ ((l.take r).foldl (runStep oc n path) acc).2.mats.B = acc.2.mats.B)
    ∧ (∀ args : List String, 2 ≤ args.length →
        (c_main args oc).2.mats.A = fill_random oc.fillA (nArg args) oc.initA
        ∧ (c_main args oc).2.mats.B = fill_random oc.fillB (nArg args) oc.initB) := by
  refine ⟨?_, ?_, ?_⟩
  · intro s
    exact ⟨Benchmark.matrix_multiply_A n s, Benchmark.matrix_multiply_B n s⟩
  · intro l r acc
    exact runLoop_mats oc n path (l.take r) acc
  · intro args hargs
    have hns : ¬args.length < 2 := by omega
    obtain ⟨hA, hB⟩ :=
      runLoop_mats oc (nArg args) (resolve_csv_path oc.envCsv) (runIdxs (runsArg args))
        (0, setupSt args oc)
    constructor
    · rw [c_main_mats args oc hns, hA]
      show (setupSt args oc).mats.A = _
      rw [setupSt_mats]
    · rw [c_main_mats args oc hns, hB]
      show (setupSt args oc).mats.B = _
      rw [setupSt_mats]

/-- Witness for C6: after `c_main ["2", "3"]` the matrices `A` and `B` hold
exactly the filled values. -/
theorem fill_once_frame_witness :
    (c_main ["2", "3"] demoOracles).2.mats.A =
      fill_random demoOracles.fillA (nArg ["2", "3"]) demoOracles.initA
    ∧ (c_main ["2", "3"] demoOracles).2.mats.B =
      fill_random demoOracles.fillB (nArg ["2", "3"]) demoOracles.initB :=
  (fill_once_frame demoOracles (nArg ["2", "3"])
    (resolve_csv_path demoOracles.envCsv)).2.2 ["2", "3"] (by decide)

/-- C7: the recorded memory value is the clamped delta: it is never
negative, equals `after - before` when that is non-negative and `0`
otherwise; and it is exactly the value written into the CSV row and into the
printed progress line of the run. -/
theorem mem_clamped (oc : Oracles) (n : Int) (path : String)
    (acc : ℚ × DriverState) (r : Nat) :
    (∀ b a : Int, 0 ≤ mem_used b a
        ∧ (b ≤ a → mem_used b a = a - b)
        ∧ (a - b < 0 → mem_used b a = 0))
    ∧ (oc.appendOpenOk r = true →
        (runStep oc n path acc r).2.file =
          some ((acc.2.file.getD []) ++
            [CsvLine.row n r (elapsedFor oc r)
              (mem_used (oc.memBefore r) (oc.memAfter r)) (oc.stamp r)]))
    ∧ (runStep oc n path acc r).2.out =
        acc.2.out ++ [OutLine.runLine r (elapsedFor oc r)
          (mem_used (oc.memBefore r) (oc.memAfter r))] := by
  refine ⟨?_, ?_, ?_⟩
  · intro b a
    refine ⟨?_, ?_, ?_⟩
    · rw [mem_used]; split <;> omega
    · intro h; rw [mem_used, if_neg (by omega)]
    · intro h; rw [mem_used, if_pos h]
  · intro hok
    simp [runStep, append_csv, hok, memFor]
  · cases hok : oc.appendOpenOk r <;> simp [runStep, append_csv, hok, memFor]

/-- Witness for C7: concrete clamping values and a concrete run step whose
row carries the clamped delta. -/
theorem mem_clamped_witness :
    mem_used 3 5 = 5 - 3
    ∧ mem_used 5 3 = 0
    ∧ (runStep demoOracles 1 "p" (0, initState demoOracles) 1).2.file =
        some (((initState demoOracles).file.getD []) ++
          [CsvLine.row 1 1 (elapsedFor demoOracles 1)
            (mem_used (demoOracles.memBefore 1) (demoOracles.memAfter 1))
            (demoOracles.stamp 1)]) :=
  ⟨((mem_clamped demoOracles 1 "p" (0, initState demoOracles) 1).1 3 5).2.1 (by decide),
   ((mem_clamped demoOracles 1 "p" (0, initState demoOracles) 1).1 5 3).2.2 (by decide),
   (mem_clamped demoOracles 1 "p" (0, initState demoOracles) 1).2.1 rfl⟩

/-- A demo environment in which the append `fopen` of run 2 fails and every
other file operation succeeds. -/
def demoOraclesFail : Oracles :=
  { demoOracles with appendOpenOk := fun r => r != 2 }

/-- C8: whatever the per-run append `fopen` outcomes, the benchmark exits
with code 0; a failed append contributes its error lines to the error stream
only, that run's row is missing from the file, and the run loop still prints
every run's progress line on standard output (whose contents do not depend
on the append outcomes at all). -/
theorem append_failure_nonfatal (args : List String) (oc : Oracles)
    (hargs : 2 ≤ args.length) (hf : oc.file0 = none) (hh : oc.headerOpenOk = true) :
    (c_main args oc).1 = 0
    ∧ (c_main args oc).2.file =
        some (CsvLine.header ::
          ((runIdxs (runsArg args)).filter (fun r => oc.appendOpenOk r)).map
            (rowFor oc (nArg args)))
    ∧ (c_main args oc).2.err =
        ((runIdxs (runsArg args)).map
          (fun r => appendErrs (oc.appendOpenOk r) (resolve_csv_path oc.envCsv))).flatten
    ∧ (c_main args oc).2.out =
        [OutLine.infoPath (resolve_csv_path oc.envCsv), OutLine.banner,
         OutLine.sizeRuns (nArg args) (runsArg args), OutLine.sep]
        ++ (runIdxs (runsArg args)).map (outFor oc)
        ++ [OutLine.sep,
            OutLine.avg (((runIdxs (runsArg args)).map (elapsedFor oc)).sum) (runsArg args),
            OutLine.bannerEnd] := by
  have hns : ¬args.length < 2 := by omega
  have hchar := setupSt_char args oc hf hh
  obtain ⟨h1, h2, h3, h4, h5, h6, h7⟩ :=
    runLoop_spec oc (nArg args) (resolve_csv_path oc.envCsv) (runIdxs (runsArg args)) 0
      (setupSt args oc) [CsvLine.header] (by rw [hchar])
  refine ⟨c_main_fst args oc hns, ?_, ?_, ?_⟩
  · rw [c_main_file args oc hns, h2]
    rfl
  · rw [c_main_err args oc hns, h4, hchar]
    simp
  · rw [c_main_out args oc hns, h3, h1, hchar]
    simp

/-- Witness for C8: with the append of run 2 failing, `c_main ["2", "3"]`
still exits 0 and drops exactly that row. -/
theorem append_failure_nonfatal_witness :
    (c_main ["2", "3"] demoOraclesFail).1 = 0
    ∧ (c_main ["2", "3"] demoOraclesFail).2.file =
        some (CsvLine.header ::
          ((runIdxs (runsArg ["2", "3"])).filter
            (fun r => demoOraclesFail.appendOpenOk r)).map
              (rowFor demoOraclesFail (nArg ["2", "3"])))
    ∧ (c_main ["2", "3"] demoOraclesFail).2.err =
        ((runIdxs (runsArg ["2", "3"])).map
          (fun r => appendErrs (demoOraclesFail.appendOpenOk r)
            (resolve_csv_path demoOraclesFail.envCsv))).flatten
    ∧ (c_main ["2", "3"] demoOraclesFail).2.out =
        [OutLine.infoPath (resolve_csv_path demoOraclesFail.envCsv), OutLine.banner,
         OutLine.sizeRuns (nArg ["2", "3"]) (runsArg ["2", "3"]), OutLine.sep]
        ++ (runIdxs (runsArg ["2", "3"])).map (outFor demoOraclesFail)
        ++ [OutLine.sep,
            OutLine.avg (((runIdxs (runsArg ["2", "3"])).map
              (elapsedFor demoOraclesFail)).sum) (runsArg ["2", "3"]),
            OutLine.bannerEnd] :=
  append_failure_nonfatal ["2", "3"] demoOraclesFail (by decide) rfl rfl

/-- C10: when the parsed run count is 0 or negative the loop body never
executes: no multiplication event, no data row beyond what `ensure_csv` put
in the file, the process still exits with code 0, and the average line is
printed with total 0 over the degenerate run count (the C code prints
`0.0 / runs`, a division the model keeps as the numerator-denominator
pair). -/
theorem degenerate_runs (args : List String) (oc : Oracles)
    (hargs : 2 ≤ args.length) (hruns : runsArg args ≤ 0) :
    (c_main args oc).1 = 0
    ∧ (c_main args oc).2.events =
        [Event.alloc (nArg args), Event.alloc (nArg args), Event.alloc (nArg args),
         Event.fill (nArg args), Event.fill (nArg args)]
    ∧ (c_main args oc).2.file =
        (ensure_csv oc.headerOpenOk (resolve_csv_path oc.envCsv) (initState oc)).file
    ∧ OutLine.avg 0 (runsArg args) ∈ (c_main args oc).2.out := by
  have hns : ¬args.length < 2 := by omega
  have hempty : runIdxs (runsArg args) = [] := by
    rw [runIdxs, Int.toNat_of_nonpos hruns]
    rfl
  refine ⟨c_main_fst args oc hns, ?_, ?_, ?_⟩
  · rw [c_main_events args oc hns, hempty, List.foldl_nil]
    exact setupSt_events args oc
  · rw [c_main_file args oc hns, hempty, List.foldl_nil]
    exact setupSt_file args oc
  · rw [c_main_out args oc hns, hempty, List.foldl_nil]
    simp

/-- Witness for C10: run count `0` gives exit 0, no multiply event, and the
degenerate average line. -/
theorem degenerate_runs_witness :
    (c_main ["2", "0"] demoOracles).1 = 0
    ∧ (c_main ["2", "0"] demoOracles).2.events =
        [Event.alloc (nArg ["2", "0"]), Event.alloc (nArg ["2", "0"]),
         Event.alloc (nArg ["2", "0"]), Event.fill (nArg ["2", "0"]),
         Event.fill (nArg ["2", "0"])]
    ∧ OutLine.avg 0 (runsArg ["2", "0"]) ∈ (c_main ["2", "0"] demoOracles).2.out :=
  ⟨(degenerate_runs ["2", "0"] demoOracles (by decide) (by decide)).1,
   (degenerate_runs ["2", "0"] demoOracles (by decide) (by decide)).2.1,
   (degenerate_runs ["2", "0"] demoOracles (by decide) (by decide)).2.2.2⟩
